import Mathlib

/-!
Verification of the core scoring logic of the ICH consciousness-recovery
calculator: linear predictor, sigmoid transform with overflow guard, and
range classification against the development-cohort reference tables.

Numeric model: the Python floats are embedded as exact rationals (every
decimal literal in the source is a rational); the real exponential stands
for `math.exp`, together with an explicit overflow threshold modelling the
`OverflowError` that `math.exp` raises when its argument exceeds
ln(DBL_MAX).  Fallible operations (a raising `math.exp`, a dict lookup
that can raise `KeyError`) return `Except Unit`.
-/

namespace ICHCalc

/-- Intercept of the fitted logistic model (identical in all three source
variants). -/
def B0 : ℚ := 5.706245

/-- Coefficient of age (years). -/
def B_AGE : ℚ := -0.116444

/-- Coefficient of the GCS-Pupils score. -/
def B_GCSP : ℚ := 0.734351

/-- Coefficient of hematoma volume (mL). -/
def B_VOL : ℚ := 0.005742

/-- Coefficient of the IVH grade (0-4). -/
def B_IVH : ℚ := -0.208413

/-- Coefficient of ventricular enlargement (0/1). -/
def B_VENT : ℚ := -1.470830

/-- Coefficient of midline shift (mm). -/
def B_MLS : ℚ := -0.041931

/-- Coefficient of admission blood glucose (mmol/L). -/
def B_GLU : ℚ := -0.166805

/-- Threshold above which the double-precision `math.exp` overflows and
raises `OverflowError` (ln of the largest finite double, about 709.78).
Only the facts that it is positive and larger than the arguments involved
in the concrete claims matter to the development below. -/
def EXP_OVERFLOW : ℚ := 709.782712893384

/-- Model of `math.exp` on a finite argument: raises (returns `error`)
exactly when the argument exceeds the overflow threshold, and otherwise
returns the real exponential.  (For very negative arguments `math.exp`
underflows to `0.0` without raising; no claim depends on the underflow,
so the result is kept exact.) -/
noncomputable def math_exp (x : ℚ) : Except Unit ℝ :=
  if EXP_OVERFLOW < x then Except.error () else Except.ok (Real.exp (x : ℝ))

/-- `sigmoid` from the SCI sources: `1/(1 + math.exp (-x))` inside a
`try`, returning `0.0` when `x < 0` and `1.0` otherwise on
`OverflowError`. -/
noncomputable def sigmoid (x : ℚ) : ℝ :=
  match math_exp (-x) with
  | Except.ok e => 1 / (1 + e)
  | Except.error _ => if x < 0 then 0 else 1

/-- The linear predictor `lp` computed inside `predict_probability`:
intercept plus the seven coefficient-weighted fields, in source order. -/
def linear_predictor (age gcsp volume ivh_grade vent_enlarged midline_shift glucose : ℚ) : ℚ :=
  B0
    + B_AGE * age
    + B_GCSP * gcsp
    + B_VOL * volume
    + B_IVH * ivh_grade
    + B_VENT * vent_enlarged
    + B_MLS * midline_shift
    + B_GLU * glucose

/-- `predict_probability` from the SCI sources: returns the pair
`(sigmoid lp, lp)`. -/
noncomputable def predict_probability (age gcsp volume ivh_grade vent_enlarged midline_shift glucose : ℚ) : ℝ × ℚ :=
  let lp := linear_predictor age gcsp volume ivh_grade vent_enlarged midline_shift glucose
  (sigmoid lp, lp)

/-- Severity flag returned by the range classifier: the Python strings
"red" and "yellow", and Python `None`. -/
inductive RangeFlag
  | red
  | yellow
  | none
deriving DecidableEq, Repr

/-- `DEV_MINMAX` from the SCI sources: development-cohort min/max per
field key; a Python dict, modelled as a partial map. -/
def DEV_MINMAX : String → Option (ℚ × ℚ)
  | "age" => some (16, 96)
  | "gcsp" => some (1, 8)
  | "volume" => some (0.0, 200.0)
  | "ivh" => some (0, 4)
  | "vent" => some (0, 1)
  | "mls" => some (0.0, 30.0)
  | "glu" => some (2.0, 30.0)
  | _ => Option.none

/-- `DEV_P1P99` from the SCI sources: development-cohort P1/P99 per field
key; note the key "vent" is absent. -/
def DEV_P1P99 : String → Option (ℚ × ℚ)
  | "age" => some (25, 88)
  | "gcsp" => some (1, 8)
  | "volume" => some (10.0, 120.0)
  | "ivh" => some (0, 4)
  | "mls" => some (0.0, 20.0)
  | "glu" => some (4.0, 20.0)
  | _ => Option.none

/-- `range_flag` from the SCI sources.  The subscript `DEV_MINMAX[key]`
raises `KeyError` when the key is absent (the `error` case); the
`DEV_P1P99.get(key, (mn, mx))` lookup falls back to the min/max pair. -/
def range_flag (value : ℚ) (key : String) : Except Unit RangeFlag :=
  match DEV_MINMAX key with
  | Option.none => Except.error ()
  | some (mn, mx) =>
    if value < mn ∨ value > mx then Except.ok RangeFlag.red
    else
      match (DEV_P1P99 key).getD (mn, mx) with
      | (p1, p99) =>
        if value < p1 ∨ value > p99 then Except.ok RangeFlag.yellow
        else Except.ok RangeFlag.none

/-- The spec data model `ReferenceRange`: one field's cohort distribution
summary. -/
structure ReferenceRange where
  min : ℚ
  max : ℚ
  p1 : ℚ
  p99 : ℚ

/-- The body of `range_flag` after both lookups have produced a
`ReferenceRange`: the classifier core the spec calls `classify`. -/
def classify (value : ℚ) (r : ReferenceRange) : RangeFlag :=
  if value < r.min ∨ value > r.max then RangeFlag.red
  else if value < r.p1 ∨ value > r.p99 then RangeFlag.yellow
  else RangeFlag.none

/-- `risk_band` from the SCI sources (communication-only bands). -/
noncomputable def risk_band (p : ℝ) : String :=
  if p < 0.20 then "Low"
  else if p < 0.50 then "Intermediate"
  else "High"

end ICHCalc

namespace Cloud

/-- Intercept in the cloud variant. -/
def B0 : ℚ := 5.706245

/-- Age coefficient in the cloud variant. -/
def B_AGE : ℚ := -0.116444

/-- GCS-Pupils coefficient in the cloud variant. -/
def B_GCSP : ℚ := 0.734351

/-- Hematoma-volume coefficient in the cloud variant (named `B_HEM`
there). -/
def B_HEM : ℚ := 0.005742

/-- IVH-grade coefficient in the cloud variant. -/
def B_IVH : ℚ := -0.208413

/-- Ventricle-enlargement coefficient in the cloud variant. -/
def B_VENT : ℚ := -1.470830

/-- Midline-shift coefficient in the cloud variant. -/
def B_MLS : ℚ := -0.041931

/-- Glucose coefficient in the cloud variant. -/
def B_GLU : ℚ := -0.166805

/-- The `logit` expression of the cloud variant. -/
def logit (age gcs_p hematoma_vol ivh_grade vent_enl mls glu : ℚ) : ℚ :=
  B0
    + B_AGE * age
    + B_GCSP * gcs_p
    + B_HEM * hematoma_vol
    + B_IVH * ivh_grade
    + B_VENT * vent_enl
    + B_MLS * mls
    + B_GLU * glu

/-- The probability line of the cloud variant,
`p = 1 / (1 + math.exp(-logit))`: there is no `try`/`except` around the
exponential, so an overflow of `math.exp` propagates as a fault. -/
noncomputable def prob (lg : ℚ) : Except Unit ℝ :=
  (ICHCalc.math_exp (-lg)).map (fun e => 1 / (1 + e))

/-- The `min` entries of the cloud `RANGES` table (enough to exhibit that
the cloud reference table differs from the SCI one). -/
def RANGES_min : String → Option ℚ
  | "Age" => some 17.0
  | "Blood_glucose" => some 1.9
  | "GCS_P" => some 1.0
  | "Hematoma_volume" => some 25.063675
  | "IVH_grade" => some 0.0
  | "Midline_shift" => some 0.0
  | "Ventricle_enlargement" => some 0.0
  | _ => Option.none

/-- The risk-band labeler of the cloud variant (thresholds 0.70/0.40). -/
noncomputable def risk_band (p : ℝ) : String :=
  if 0.70 ≤ p then "较高概率恢复"
  else if 0.40 ≤ p then "中等概率恢复"
  else "较低概率恢复"

end Cloud

namespace StaticMode

/-- Intercept in the static-mode variant (textually identical model code
to the final SCI variant). -/
def B0 : ℚ := 5.706245

/-- Age coefficient in the static-mode variant. -/
def B_AGE : ℚ := -0.116444

/-- GCS-Pupils coefficient in the static-mode variant. -/
def B_GCSP : ℚ := 0.734351

/-- Hematoma-volume coefficient in the static-mode variant. -/
def B_VOL : ℚ := 0.005742

/-- IVH-grade coefficient in the static-mode variant. -/
def B_IVH : ℚ := -0.208413

/-- Ventricle-enlargement coefficient in the static-mode variant. -/
def B_VENT : ℚ := -1.470830

/-- Midline-shift coefficient in the static-mode variant. -/
def B_MLS : ℚ := -0.041931

/-- Glucose coefficient in the static-mode variant. -/
def B_GLU : ℚ := -0.166805

/-- The linear predictor of the static-mode variant. -/
def linear_predictor (age gcsp volume ivh_grade vent_enlarged midline_shift glucose : ℚ) : ℚ :=
  B0
    + B_AGE * age
    + B_GCSP * gcsp
    + B_VOL * volume
    + B_IVH * ivh_grade
    + B_VENT * vent_enlarged
    + B_MLS * midline_shift
    + B_GLU * glucose

end StaticMode

namespace ICHCalc

/-- The spec's `computeLinearPredictor`, written the way the spec words
it: intercept plus the sum of coefficient-times-field products over the
seven fields in the fixed field order (age, gcsp, volume, ivh, vent,
mls, glu).  Used only to compare against `linear_predictor`, which is
transcribed from the source. -/
def spec_linear_predictor (fields : List ℚ) : ℚ :=
  B0 + (List.zipWith (fun c x => c * x)
    [B_AGE, B_GCSP, B_VOL, B_IVH, B_VENT, B_MLS, B_GLU] fields).sum

/-- Addition on doubles that may be NaN (`Option.none` stands for NaN):
NaN absorbs. -/
def nan_add : Option ℚ → Option ℚ → Option ℚ
  | some a, some b => some (a + b)
  | _, _ => Option.none

/-- Multiplication on doubles that may be NaN: NaN absorbs. -/
def nan_mul : Option ℚ → Option ℚ → Option ℚ
  | some a, some b => some (a * b)
  | _, _ => Option.none

/-- The `lp` expression of `predict_probability` evaluated in the
NaN-propagating arithmetic: the source performs no finiteness check, so
a NaN field flows through the sum. -/
def nan_linear_predictor (age gcsp volume ivh_grade vent_enlarged midline_shift glucose : Option ℚ) : Option ℚ :=
  nan_add (nan_add (nan_add (nan_add (nan_add (nan_add (nan_add (some B0)
    (nan_mul (some B_AGE) age)) (nan_mul (some B_GCSP) gcsp))
    (nan_mul (some B_VOL) volume)) (nan_mul (some B_IVH) ivh_grade))
    (nan_mul (some B_VENT) vent_enlarged)) (nan_mul (some B_MLS) midline_shift))
    (nan_mul (some B_GLU) glucose)

/-- `sigmoid` on a double that may be NaN: `math.exp` of NaN is NaN
without raising, and `1/(1+NaN)` is NaN, so NaN in gives NaN out. -/
noncomputable def nan_sigmoid (x : Option ℚ) : Option ℝ :=
  Option.map sigmoid x

/-- `predict_probability` evaluated in the NaN-propagating arithmetic. -/
noncomputable def nan_predict_probability (age gcsp volume ivh_grade vent_enlarged midline_shift glucose : Option ℚ) : Option ℝ × Option ℚ :=
  let lp := nan_linear_predictor age gcsp volume ivh_grade vent_enlarged midline_shift glucose
  (nan_sigmoid lp, lp)

lemma classify_red_iff (v : ℚ) (r : ReferenceRange) :
    classify v r = RangeFlag.red ↔ v < r.min ∨ v > r.max := by
  unfold classify
  split_ifs with h1 h2 <;> simp [*]

lemma classify_yellow_iff (v : ℚ) (r : ReferenceRange) :
    classify v r = RangeFlag.yellow ↔
      (r.min ≤ v ∧ v ≤ r.max) ∧ (v < r.p1 ∨ v > r.p99) := by
  unfold classify
  split_ifs with h1 h2
  · constructor
    · intro h; exact absurd h (by simp)
    · rintro ⟨⟨ha, hb⟩, -⟩
      rcases h1 with h | h
      · exact absurd ha (not_le.mpr h)
      · exact absurd hb (not_le.mpr h)
  · push_neg at h1
    simp [h1.1, h1.2, h2]
  · simp [h2]

lemma classify_none_iff (v : ℚ) (r : ReferenceRange) :
    classify v r = RangeFlag.none ↔
      (r.min ≤ v ∧ v ≤ r.max) ∧ (r.p1 ≤ v ∧ v ≤ r.p99) := by
  unfold classify
  split_ifs with h1 h2
  · constructor
    · intro h; exact absurd h (by simp)
    · rintro ⟨⟨ha, hb⟩, -⟩
      rcases h1 with h | h
      · exact absurd ha (not_le.mpr h)
      · exact absurd hb (not_le.mpr h)
  · constructor
    · intro h; exact absurd h (by simp)
    · rintro ⟨-, ⟨hc, hd⟩⟩
      rcases h2 with h | h
      · exact absurd hc (not_le.mpr h)
      · exact absurd hd (not_le.mpr h)
  · push_neg at h1
    push_neg at h2
    simp [h1.1, h1.2, h2.1, h2.2]

lemma range_flag_ok (v : ℚ) (k : String) (mn mx : ℚ)
    (h : DEV_MINMAX k = some (mn, mx)) :
    ∃ f, range_flag v k = Except.ok f := by
  unfold range_flag
  split
  · simp_all
  · split_ifs
    · exact ⟨_, rfl⟩
    · split
      split_ifs <;> exact ⟨_, rfl⟩

end ICHCalc

open ICHCalc

/-- Claim C2: for every value and every reference range, the classifier
returns red exactly when the value is strictly outside [min, max],
yellow exactly when it is inside [min, max] but strictly outside
[p1, p99], and no flag otherwise; all four comparisons are strict, so a
value equal to min or max is never flagged red by those comparisons and
a value equal to p1 or p99 is never flagged yellow by those
comparisons. -/
theorem claim2_classifier_strict (v : ℚ) (r : ReferenceRange) :
    (classify v r = RangeFlag.red ↔ v < r.min ∨ v > r.max)
    ∧ (classify v r = RangeFlag.yellow ↔
        (r.min ≤ v ∧ v ≤ r.max) ∧ (v < r.p1 ∨ v > r.p99))
    ∧ (classify v r = RangeFlag.none ↔
        (r.min ≤ v ∧ v ≤ r.max) ∧ (r.p1 ≤ v ∧ v ≤ r.p99))
    ∧ (v = r.min ∨ v = r.max → r.min ≤ r.max → classify v r ≠ RangeFlag.red)
    ∧ (v = r.p1 ∨ v = r.p99 → r.p1 ≤ r.p99 → classify v r ≠ RangeFlag.yellow) := by
  refine ⟨classify_red_iff v r, classify_yellow_iff v r, classify_none_iff v r, ?_, ?_⟩
  · rintro (rfl | rfl) hle
    · simp only [Ne, classify_red_iff, not_or, not_lt]
      exact ⟨le_refl _, hle⟩
    · simp only [Ne, classify_red_iff, not_or, not_lt]
      exact ⟨hle, le_refl _⟩
  · rintro (rfl | rfl) hle
    · simp only [Ne, classify_yellow_iff, not_and, not_or, not_lt]
      intro
      exact ⟨le_refl _, hle⟩
    · simp only [Ne, classify_yellow_iff, not_and, not_or, not_lt]
      intro
      exact ⟨hle, le_refl _⟩

/-- Claim C2 witness: at the age reference range, the boundary value 16
is not red (strict min comparison) yet is yellow (it lies below p1). -/
theorem claim2_witness :
    classify 16 ⟨16, 96, 25, 88⟩ = RangeFlag.yellow
    ∧ classify 16 ⟨16, 96, 25, 88⟩ ≠ RangeFlag.red :=
  ⟨((claim2_classifier_strict 16 ⟨16, 96, 25, 88⟩).2.1).mpr
    (by with_unfolding_all decide),
   (claim2_classifier_strict 16 ⟨16, 96, 25, 88⟩).2.2.2.1 (Or.inl rfl)
    (by with_unfolding_all decide)⟩

/-- Claim C3 counterexample: against the age reference range
({min 16, max 96, p1 25, p99 88}) the classifier flags the boundary
value 16 as yellow (Caution), not as unflagged (None) as the claim
states, because 16 lies strictly below p1 = 25. -/
theorem claim3_counterexample :
    range_flag 16 ("age") = Except.ok RangeFlag.yellow
    ∧ ¬ range_flag 16 ("age") = Except.ok RangeFlag.none :=
  ⟨rfl, fun h => RangeFlag.noConfusion (Except.ok.inj
    ((rfl : range_flag 16 ("age") = Except.ok RangeFlag.yellow).symm.trans h))⟩

/-- Claim C3 (amended): against the age reference range {min 16, max 96,
p1 25, p99 88}, the classifier returns Caution for 16 (equal to min,
hence not Extrapolation, but below p1), Extrapolation for 15.999,
Caution for 20, None for 50, Caution for 96 (equal to max, hence not
Extrapolation, but above p99), and Extrapolation for 96.001. -/
theorem claim3_boundary_examples :
    range_flag 16 ("age") = Except.ok RangeFlag.yellow
    ∧ range_flag 15.999 ("age") = Except.ok RangeFlag.red
    ∧ range_flag 20 ("age") = Except.ok RangeFlag.yellow
    ∧ range_flag 50 ("age") = Except.ok RangeFlag.none
    ∧ range_flag 96 ("age") = Except.ok RangeFlag.yellow
    ∧ range_flag 96.001 ("age") = Except.ok RangeFlag.red :=
  ⟨rfl, by with_unfolding_all rfl, rfl, rfl, rfl, by with_unfolding_all rfl⟩

/-- Claim C5: for every observation, `predict_probability` returns the
pair of `sigmoid` applied to the linear predictor together with the
linear predictor itself, and the linear predictor coincides with the
spec's intercept-plus-ordered-weighted-sum formulation; the function is
total on its rational inputs by construction. -/
theorem claim5_predictor_composition (age gcsp volume ivh vent mls glu : ℚ) :
    predict_probability age gcsp volume ivh vent mls glu
      = (sigmoid (linear_predictor age gcsp volume ivh vent mls glu),
         linear_predictor age gcsp volume ivh vent mls glu)
    ∧ linear_predictor age gcsp volume ivh vent mls glu
      = spec_linear_predictor [age, gcsp, volume, ivh, vent, mls, glu] := by
  refine ⟨rfl, ?_⟩
  simp only [spec_linear_predictor, linear_predictor, List.zipWith,
    List.sum_cons, List.sum_nil]
  ring

/-- Claim C8 counterexample: invoking the classifier with a field name
that has no reference entry is not statically impossible — it is a
well-typed call that fails at call time with a `KeyError`. -/
theorem claim8_counterexample :
    range_flag 50 ("foo") = Except.error () := rfl

/-- Claim C8 (amended): the classifier performs a call-time dictionary
lookup and raises `KeyError` on an unknown field name, so missing
reference data is not statically unrepresentable; however, for each of
the seven field names the program actually passes, the lookup table is
complete and the classifier always returns a flag. -/
theorem claim8_program_keys_total (v : ℚ) (k : String)
    (h : k ∈ ["age", "gcsp", "volume", "ivh", "vent", "mls", "glu"]) :
    ∃ f, range_flag v k = Except.ok f := by
  fin_cases h
  · exact range_flag_ok v _ 16 96 rfl
  · exact range_flag_ok v _ 1 8 rfl
  · exact range_flag_ok v _ 0.0 200.0 rfl
  · exact range_flag_ok v _ 0 4 rfl
  · exact range_flag_ok v _ 0 1 rfl
  · exact range_flag_ok v _ 0.0 30.0 rfl
  · exact range_flag_ok v _ 2.0 30.0 rfl

/-- Claim C8 witness: the classifier succeeds on the key "age". -/
theorem claim8_witness :
    ∃ f, range_flag 0 ("age") = Except.ok f :=
  claim8_program_keys_total 0 ("age") (by simp)

/-- Claim C10: for a field key present in `DEV_MINMAX` but absent from
`DEV_P1P99`, the P1/P99 lookup falls back to the min/max pair itself, so
the classifier can never return yellow: the result is red exactly when
the value is strictly outside [min, max] and no flag otherwise. -/
theorem claim10_fallback_no_yellow (k : String) (mn mx : ℚ)
    (h1 : DEV_MINMAX k = some (mn, mx)) (h2 : DEV_P1P99 k = Option.none)
    (v : ℚ) :
    range_flag v k ≠ Except.ok RangeFlag.yellow
    ∧ (range_flag v k = Except.ok RangeFlag.red ↔ v < mn ∨ v > mx)
    ∧ (range_flag v k = Except.ok RangeFlag.none ↔ mn ≤ v ∧ v ≤ mx) := by
  unfold range_flag
  rw [h1, h2]
  simp only [Option.getD_none]
  split_ifs with ha
  · refine ⟨by simp, by simp [ha], ?_⟩
    constructor
    · intro h; exact absurd (Except.ok.inj h) (by simp)
    · rintro ⟨h3, h4⟩
      rcases ha with h | h
      · exact absurd h3 (not_le.mpr h)
      · exact absurd h4 (not_le.mpr h)
  · push_neg at ha
    refine ⟨by simp, by simp [not_or, not_lt, ha.1, ha.2], by simp [ha.1, ha.2]⟩

/-- Claim C10 witness: the key "vent" is in `DEV_MINMAX` with range
[0, 1] but absent from `DEV_P1P99`; at value 1/2 the classifier cannot
return yellow and returns no flag. -/
theorem claim10_witness :
    range_flag (1/2) ("vent") ≠ Except.ok RangeFlag.yellow
    ∧ (range_flag (1/2) ("vent") = Except.ok RangeFlag.red ↔
        (1/2 : ℚ) < 0 ∨ (1/2 : ℚ) > 1)
    ∧ (range_flag (1/2) ("vent") = Except.ok RangeFlag.none ↔
        (0 : ℚ) ≤ 1/2 ∧ (1/2 : ℚ) ≤ 1) :=
  claim10_fallback_no_yellow ("vent") 0 1 rfl rfl (1/2)

namespace ICHCalc

lemma EXP_OVERFLOW_pos : (0 : ℚ) < EXP_OVERFLOW := by
  norm_num [EXP_OVERFLOW]

lemma sigmoid_eq (x : ℚ) :
    sigmoid x = if EXP_OVERFLOW < -x then (if x < 0 then (0 : ℝ) else 1)
      else 1 / (1 + Real.exp ((-x : ℚ) : ℝ)) := by
  unfold sigmoid math_exp
  by_cases h : EXP_OVERFLOW < -x
  · rw [if_pos h, if_pos h]
  · rw [if_neg h, if_neg h]

lemma sigmoid_nonneg (x : ℚ) : 0 ≤ sigmoid x := by
  rw [sigmoid_eq]
  split_ifs with h1 h2
  · exact le_refl 0
  · exact zero_le_one
  · positivity

lemma sigmoid_le_one (x : ℚ) : sigmoid x ≤ 1 := by
  rw [sigmoid_eq]
  split_ifs with h1 h2
  · exact zero_le_one
  · exact le_refl 1
  · rw [div_le_one (by positivity)]
    have := Real.exp_pos ((-x : ℚ) : ℝ)
    linarith

lemma sigmoid_mono {x y : ℚ} (hxy : x ≤ y) : sigmoid x ≤ sigmoid y := by
  have hyx : ((-y : ℚ) : ℝ) ≤ ((-x : ℚ) : ℝ) := by exact_mod_cast neg_le_neg hxy
  rw [sigmoid_eq, sigmoid_eq]
  by_cases h1 : EXP_OVERFLOW < -x
  · have hx : x < 0 := by
      have := EXP_OVERFLOW_pos
      linarith
    rw [if_pos h1, if_pos hx]
    by_cases h2 : EXP_OVERFLOW < -y
    · have hy : y < 0 := by
        have := EXP_OVERFLOW_pos
        linarith
      rw [if_pos h2, if_pos hy]
    · rw [if_neg h2]
      positivity
  · have h2 : ¬ EXP_OVERFLOW < -y := fun hc => h1 (lt_of_lt_of_le hc (neg_le_neg hxy))
    rw [if_neg h1, if_neg h2]
    have hexp : Real.exp ((-y : ℚ) : ℝ) ≤ Real.exp ((-x : ℚ) : ℝ) := Real.exp_le_exp.mpr hyx
    have hpos : (0 : ℝ) < 1 + Real.exp ((-y : ℚ) : ℝ) := by positivity
    apply one_div_le_one_div_of_le hpos
    linarith

end ICHCalc

/-- Claim C6: sigmoid always lies in [0, 1], equals 1/2 at 0, and is
monotonically non-decreasing. -/
theorem claim6_sigmoid_properties :
    (∀ x : ℚ, 0 ≤ sigmoid x ∧ sigmoid x ≤ 1)
    ∧ sigmoid 0 = 1 / 2
    ∧ ∀ x y : ℚ, x ≤ y → sigmoid x ≤ sigmoid y := by
  refine ⟨fun x => ⟨sigmoid_nonneg x, sigmoid_le_one x⟩, ?_, fun x y h => sigmoid_mono h⟩
  rw [sigmoid_eq, if_neg (by norm_num [EXP_OVERFLOW])]
  norm_num

/-- Claim C6 witness: monotonicity applied at the concrete pair 0 ≤ 1. -/
theorem claim6_witness : sigmoid 0 ≤ sigmoid 1 :=
  claim6_sigmoid_properties.2.2 0 1 (by with_unfolding_all decide)

/-- Claim C4 counterexample: the overflow guard is not present in every
variant — the cloud variant computes `1/(1 + math.exp(-logit))` with no
`try`/`except`, so at logit = -1000 it raises instead of returning a
saturated probability. -/
theorem claim4_counterexample :
    Cloud.prob (-1000) = Except.error () := by
  unfold Cloud.prob ICHCalc.math_exp
  rw [if_pos]
  · rfl
  · norm_num [ICHCalc.EXP_OVERFLOW]

/-- Claim C4 (amended): in the two SCI variants, `sigmoid` catches the
exponential overflow unconditionally and returns 0.0 when x < 0 and 1.0
otherwise; the cloud variant computes the exponential unguarded and
propagates the overflow as a fault. -/
theorem claim4_overflow_guard (x : ℚ) (h : EXP_OVERFLOW < -x) :
    sigmoid x = (if x < 0 then (0 : ℝ) else 1)
    ∧ Cloud.prob x = Except.error () := by
  constructor
  · rw [sigmoid_eq, if_pos h]
  · unfold Cloud.prob ICHCalc.math_exp
    rw [if_pos h]
    rfl

/-- Claim C4 witness: at x = -1000 the exponential overflows; the SCI
sigmoid returns 0.0 while the cloud expression faults. -/
theorem claim4_witness :
    sigmoid (-1000) = (if (-1000 : ℚ) < 0 then (0 : ℝ) else 1)
    ∧ Cloud.prob (-1000) = Except.error () :=
  claim4_overflow_guard (-1000) (by with_unfolding_all decide)

/-- Claim C7: the code performs no finiteness check — a NaN observation
field propagates silently through the linear predictor and sigmoid and
yields a NaN probability rather than an explicit failure (`Option.none`
models NaN; the result is the pair (NaN probability, NaN linear
predictor), not an error). -/
theorem claim7_nan_propagates :
    nan_predict_probability Option.none (some 6) (some 40) (some 2)
      (some 0) (some 8) (some 9) = (Option.none, Option.none) := rfl

/-- Claim C9: all three variants use identical coefficients in the same
field order, so they compute the same linear predictor on every input
and the same probability whenever the exponential does not overflow;
their risk-band thresholds and reference tables, by contrast, differ. -/
theorem claim9_variants_agree (a g v i ve m gl : ℚ) :
    linear_predictor a g v i ve m gl = Cloud.logit a g v i ve m gl
    ∧ linear_predictor a g v i ve m gl = StaticMode.linear_predictor a g v i ve m gl
    ∧ (¬ EXP_OVERFLOW < -(linear_predictor a g v i ve m gl) →
        Cloud.prob (linear_predictor a g v i ve m gl)
          = Except.ok (sigmoid (linear_predictor a g v i ve m gl)))
    ∧ risk_band 0.6 = "High" ∧ Cloud.risk_band 0.6 = "中等概率恢复"
    ∧ DEV_MINMAX ("age") = some (16, 96) ∧ Cloud.RANGES_min ("Age") = some 17.0 := by
  refine ⟨by with_unfolding_all rfl, by with_unfolding_all rfl, ?_, ?_, ?_, rfl, rfl⟩
  · intro h
    unfold Cloud.prob ICHCalc.sigmoid ICHCalc.math_exp
    rw [if_neg h]
    rfl
  · unfold ICHCalc.risk_band
    rw [if_neg (by norm_num), if_neg (by norm_num)]
  · unfold Cloud.risk_band
    rw [if_neg (by norm_num), if_pos (by norm_num)]

/-- Claim C9 witness: at the reference observation the SCI and cloud
predictors coincide, including the probability (no overflow there). -/
theorem claim9_witness :
    linear_predictor 67 6 40 2 0 8 9 = Cloud.logit 67 6 40 2 0 8 9
    ∧ Cloud.prob (linear_predictor 67 6 40 2 0 8 9)
        = Except.ok (sigmoid (linear_predictor 67 6 40 2 0 8 9)) :=
  ⟨(claim9_variants_agree 67 6 40 2 0 8 9).1,
   (claim9_variants_agree 67 6 40 2 0 8 9).2.2.1 (by with_unfolding_all decide)⟩

namespace ICHCalc

lemma exp_reference_bounds :
    (0.75067 : ℝ) < Real.exp (-0.286764 : ℝ)
    ∧ Real.exp (-0.286764 : ℝ) < 0.75070 := by
  have habs : |(-0.286764 : ℝ)| ≤ 1 := by
    rw [abs_le]
    constructor <;> norm_num
  have hb := Real.exp_bound habs (by norm_num : (0 : ℕ) < 6)
  rw [abs_of_neg (by norm_num : (-0.286764 : ℝ) < 0)] at hb
  simp only [Finset.sum_range_succ, Finset.sum_range_zero] at hb
  norm_num [Nat.factorial, Nat.succ_eq_add_one] at hb
  rcases abs_le.mp hb with ⟨hb1, hb2⟩
  constructor <;> linarith

end ICHCalc

/-- Claim C1: at the reference observation (age 67, gcsp 6, volume 40,
ivh 2, vent 0, mls 8, glu 9) with the reference coefficients,
`predict_probability` returns the linear predictor 0.286764 exactly and
a probability within 1e-4 of 0.5712. -/
theorem claim1_reference_observation :
    (predict_probability 67 6 40 2 0 8 9).2 = 0.286764
    ∧ |(predict_probability 67 6 40 2 0 8 9).1 - 0.5712| < 0.0001 := by
  have hlp : linear_predictor 67 6 40 2 0 8 9 = 0.286764 := by
    norm_num [linear_predictor, B0, B_AGE, B_GCSP, B_VOL, B_IVH, B_VENT, B_MLS, B_GLU]
  constructor
  · exact hlp
  · have hfst : (predict_probability 67 6 40 2 0 8 9).1
        = sigmoid (linear_predictor 67 6 40 2 0 8 9) := rfl
    rw [hfst, hlp, sigmoid_eq, if_neg (by norm_num [EXP_OVERFLOW])]
    have hcast : ((-(0.286764 : ℚ) : ℚ) : ℝ) = (-0.286764 : ℝ) := by norm_num
    rw [hcast]
    obtain ⟨hlo, hhi⟩ := exp_reference_bounds
    have hpos : (0 : ℝ) < 1 + Real.exp (-0.286764 : ℝ) := by
      have := Real.exp_pos (-0.286764 : ℝ)
      linarith
    rw [abs_lt]
    constructor
    · have h : (0.5711 : ℝ) < 1 / (1 + Real.exp (-0.286764 : ℝ)) := by
        rw [lt_div_iff₀ hpos]
        linarith
      linarith
    · have h : 1 / (1 + Real.exp (-0.286764 : ℝ)) < (0.5713 : ℝ) := by
        rw [div_lt_iff₀ hpos]
        linarith
      linarith
